import Mathlib

/-!
Verification development for the Atterberg limits calculation engine
(`calculations/atterberg_calculations.py`).

The Python module is shallowly embedded here. Exact laboratory masses and
water contents are modelled as rationals; the floating-point regression of
`calculate_liquid_limit` (NumPy `polyfit` in log-drop-count space) is
modelled over the reals. Python's distinct `None` and float-`nan` markers,
which the source mixes, are modelled explicitly by the `PyVal` type.
-/

/-- Python numeric cell as it flows through the Atterberg pipeline: an
`int`, a float `nan` (the missing-value sentinel produced by the
calculations), or Python `None` (used when no plastic-limit trials exist). -/
inductive PyVal where
  | pynone : PyVal
  | nan : PyVal
  | int (n : ℤ) : PyVal
deriving DecidableEq

/-- Python's built-in `round(x, 0)` (round half to even) on an exact
rational, as used by `int(round(..., 0))` in the source. -/
def pyRoundQ (x : ℚ) : ℤ :=
  if Int.fract x = 1/2 then (if Even ⌊x⌋ then ⌊x⌋ else ⌊x⌋ + 1) else round x

/-- The scan loop of `calculation_plastic_limit`: walk the water contents
(already sorted ascending), and for the first adjacent pair whose difference
is at most `1.4` — compared on the raw stored scale, i.e. directly against
the fractional water contents — return the rounded average times 100.
If no adjacent pair qualifies, the source logs and returns `np.nan`. -/
def plScan : List ℚ → PyVal
  | a :: b :: rest =>
    if |a - b| ≤ 7/5 then PyVal.int (pyRoundQ ((a + b) / 2 * 100))
    else plScan (b :: rest)
  | _ => PyVal.nan

/-- `calculation_plastic_limit`: sort the group's water contents ascending
(`sort_values("water_content")`), then scan adjacent pairs. -/
def calculation_plastic_limit (wcs : List ℚ) : PyVal :=
  plScan (List.insertionSort (· ≤ ·) wcs)

/-- The per-trial loop of `check_astm_criteria`. The three booleans are the
`range_25_35`, `range_20_30`, `range_15_25` flags; branches mirror the
source's `elif` chain. The final `elif drops < 15 or drops > 35` branch
evaluates the f-string `f"... trial #{trial} ..."`, but the loop binds
`trial_number`, not `trial`, so reaching that branch raises `NameError`. -/
def checkLoop : List ℤ → Bool → Bool → Bool → Except String (Bool × Bool × Bool)
  | [], a, b, c => Except.ok (a, b, c)
  | d :: rest, a, b, c =>
    if 25 ≤ d ∧ d ≤ 35 ∧ a = false then checkLoop rest true b c
    else if 20 ≤ d ∧ d ≤ 30 ∧ b = false then checkLoop rest a true c
    else if 15 ≤ d ∧ d ≤ 25 ∧ c = false then checkLoop rest a b true
    else if d < 15 ∨ 35 < d then
      Except.error "NameError: name trial is not defined"
    else checkLoop rest a b c

/-- `check_astm_criteria`: run the band check over the trials' drop counts;
if all three bands are satisfied the liquid limit passes through unchanged
(with an empty diagnostic), otherwise it is replaced by `np.nan` and a
diagnostic naming the first unmet band (checked 25-35, then 20-30, then
15-25) is logged. The diagnostic is returned here so it can be observed. -/
def check_astm_criteria (dropsList : List ℤ) (liquid_limit : PyVal) :
    Except String (PyVal × String) :=
  match checkLoop dropsList false false false with
  | Except.error e => Except.error e
  | Except.ok (a, b, c) =>
    if a && b && c then Except.ok (liquid_limit, "")
    else if a = false then
      Except.ok (PyVal.nan, "Need a trial between 25 and 35 drops")
    else if b = false then
      Except.ok (PyVal.nan, "Need a trial between 20 and 30 drops")
    else
      Except.ok (PyVal.nan, "Need a trial between 15 and 25 drops")

/-- Decidable equality for `Except`, needed to evaluate the embedded
functions on concrete inputs. -/
instance exceptDecEq {ε α : Type} [DecidableEq ε] [DecidableEq α] : DecidableEq (Except ε α)
  | Except.error a, Except.error b =>
    if h : a = b then isTrue (congrArg Except.error h)
    else isFalse (fun hc => h (Except.error.inj hc))
  | Except.error _, Except.ok _ => isFalse (fun hc => Except.noConfusion hc)
  | Except.ok _, Except.error _ => isFalse (fun hc => Except.noConfusion hc)
  | Except.ok a, Except.ok b =>
    if h : a = b then isTrue (congrArg Except.ok h)
    else isFalse (fun hc => h (Except.ok.inj hc))

/-- Sanity check mirroring the spec's own plastic-limit example: water
contents [0.18, 0.192, 0.25] give 19 from the first adjacent pair. -/
lemma plastic_limit_spec_example :
    calculation_plastic_limit [9/50, 24/125, 1/4] = PyVal.int 19 := by
  norm_num [calculation_plastic_limit, List.insertionSort, List.orderedInsert, plScan,
    pyRoundQ, Int.fract, round_eq, abs_le, lt_abs]

/-- One row of the liquid-limit query result (`query_ll` joined columns).
`sample_id` is `none` when the database value is NULL/NaN (`pd.isna`).
Masses are exact rationals. -/
structure LLRow where
  project_number : String
  location_name : String
  sample_reference : String
  sample_id : Option ℤ
  trial : ℤ
  drops : ℤ
  tare : ℚ
  taremoist : ℚ
  taredry : ℚ
deriving DecidableEq

/-- One row of the plastic-limit query result (`query_pl`; no `drops`). -/
structure PLRow where
  project_number : String
  location_name : String
  sample_reference : String
  sample_id : Option ℤ
  trial : ℤ
  tare : ℚ
  taremoist : ℚ
  taredry : ℚ
deriving DecidableEq

/-- Derived column computed by `fetch_data`:
`water_content = (taremoist - taredry) / (taredry - tare)`. -/
def LLRow.water_content (r : LLRow) : ℚ :=
  (r.taremoist - r.taredry) / (r.taredry - r.tare)

/-- Derived column computed by `fetch_data` for plastic-limit rows. -/
def PLRow.water_content (r : PLRow) : ℚ :=
  (r.taremoist - r.taredry) / (r.taredry - r.tare)

/-- `fetch_data`: given the query result (`none` models `execute_query`
returning `None` after a database error), raise `ValueError` when there is
no data, otherwise return the rows. The derived columns added by the source
are modelled by the `water_content` functions on the row types. -/
def fetch_data {α : Type} (df : Option (List α)) (project_number : String) :
    Except String (List α) :=
  match df with
  | none =>
    Except.error ("Failed to fetch data: No data found for project number: "
      ++ project_number)
  | some rows =>
    if rows.isEmpty then
      Except.error ("Failed to fetch data: No data found for project number: "
        ++ project_number)
    else Except.ok rows

/-- Grouping key used by `iterate_by_sample`:
`(location_name, sample_reference)`. -/
def rowKey (r : LLRow) : String × String :=
  (r.location_name, r.sample_reference)

/-- Grouping key of a plastic-limit row. -/
def plRowKey (p : PLRow) : String × String :=
  (p.location_name, p.sample_reference)

/-- Lexicographic order on group keys; pandas `groupby` sorts the group
keys in this order. -/
def keyLe (a b : String × String) : Prop :=
  a.1 < b.1 ∨ (a.1 = b.1 ∧ a.2 ≤ b.2)

instance keyLeDec : DecidableRel keyLe := fun a b =>
  decidable_of_iff (a.1 < b.1 ∨ (a.1 = b.1 ∧ a.2 ≤ b.2)) Iff.rfl

instance keyLeTotal : IsTotal (String × String) keyLe where
  total a b := by
    rcases lt_trichotomy a.1 b.1 with h | h | h
    · exact Or.inl (Or.inl h)
    · rcases le_total a.2 b.2 with h2 | h2
      · exact Or.inl (Or.inr ⟨h, h2⟩)
      · exact Or.inr (Or.inr ⟨h.symm, h2⟩)
    · exact Or.inr (Or.inl h)

instance keyLeTrans : IsTrans (String × String) keyLe where
  trans a b c hab hbc := by
    rcases hab with h1 | ⟨h1, h1'⟩
    · rcases hbc with h2 | ⟨h2, _⟩
      · exact Or.inl (h1.trans h2)
      · exact Or.inl (h2 ▸ h1)
    · rcases hbc with h2 | ⟨h2, h2'⟩
      · exact Or.inl (h1 ▸ h2)
      · exact Or.inr ⟨h1.trans h2, h1'.trans h2'⟩

instance keyLeAntisymm : IsAntisymm (String × String) keyLe where
  antisymm a b hab hba := by
    rcases hab with h1 | ⟨h1, h1'⟩
    · rcases hba with h2 | ⟨h2, _⟩
      · exact absurd (h1.trans h2) (lt_irrefl _)
      · exact absurd h1 (h2 ▸ lt_irrefl _)
    · rcases hba with h2 | ⟨h2, h2'⟩
      · exact absurd h2 (h1 ▸ lt_irrefl _)
      · exact Prod.ext h1 (le_antisymm h1' h2')

/-- The sorted list of distinct group keys produced by
`ll_df.groupby(["location_name", "sample_reference"])`. -/
def groupKeys (ll_df : List LLRow) : List (String × String) :=
  List.insertionSort keyLe (ll_df.map rowKey).dedup

/-- The rows of one group, in their original order (pandas `groupby`
preserves within-group row order). -/
def groupRows (ll_df : List LLRow) (k : String × String) : List LLRow :=
  ll_df.filter (fun r => decide (rowKey r = k))

/-- Python `liquid_limit - plastic_limit` on the values reaching the
plasticity-index computation: both operands are guarded to be non-`None`
by the branch condition, and float `nan` propagates through subtraction. -/
def pySub : PyVal → PyVal → PyVal
  | PyVal.int m, PyVal.int n => PyVal.int (m - n)
  | _, _ => PyVal.nan

/-- Python `liquid_limit >= 50` on the guarded value: comparison of float
`nan` with a number is `False`. -/
def pyGe50 : PyVal → Bool
  | PyVal.int n => decide (50 ≤ n)
  | _ => false

/-- The plasticity-index / soil-description step of `iterate_by_sample`
(lines 341-346): note the branch tests `is not None`, so a float `nan`
liquid or plastic limit still takes the first branch. -/
def plasticityStep (liquid_limit plastic_limit : PyVal) : PyVal × String :=
  if liquid_limit ≠ PyVal.pynone ∧ plastic_limit ≠ PyVal.pynone then
    (pySub liquid_limit plastic_limit, if pyGe50 liquid_limit then "CH" else "CL")
  else (PyVal.pynone, "NP")

/-- The `x if not pd.isna(x) else None` conversion used when the result
record is built: both `nan` and `None` become a missing field. -/
def toField : PyVal → Option ℤ
  | PyVal.int n => some n
  | _ => none

/-- One computed Atterberg result record. -/
structure AttResult where
  project_number : String
  location_name : String
  sample_id : ℤ
  sample_reference : String
  liquid_limit : Option ℤ
  plastic_limit : Option ℤ
  plasticity_index : Option ℤ
  soil_description : String
deriving DecidableEq

/-- The body of the per-group loop of `iterate_by_sample`. `computeLL`
abstracts `calculation_liquid_limit` (the floating-point regression plus
`check_astm_criteria`); an `Except.error` models an exception raised while
processing the group, which the source catches at the loop boundary
(`except Exception`) and turns into a skip, exactly like the `continue`
taken when `sample_id` is missing. The sample-id mismatch between the LL
and PL rows only produces a log warning in the source, so it does not
appear here. -/
def processGroup (computeLL : List LLRow → Except String PyVal)
    (k : String × String) (sample_group : List LLRow) (pl_df : List PLRow) :
    Option AttResult :=
  match sample_group with
  | [] => none
  | r0 :: _ =>
    match r0.sample_id with
    | none => none
    | some sid =>
      match computeLL sample_group with
      | Except.error _ => none
      | Except.ok liquid_limit =>
        let pl_sample := pl_df.filter (fun p => decide (plRowKey p = k))
        let plastic_limit :=
          if pl_sample.isEmpty then PyVal.pynone
          else calculation_plastic_limit (pl_sample.map PLRow.water_content)
        let step := plasticityStep liquid_limit plastic_limit
        some { project_number := r0.project_number
               location_name := k.1
               sample_id := sid
               sample_reference := k.2
               liquid_limit := toField liquid_limit
               plastic_limit := toField plastic_limit
               plasticity_index := toField step.1
               soil_description := step.2 }

/-- The `results` list accumulated by `iterate_by_sample`: one optional
record per group key, skipped groups omitted. -/
def resultsOf (computeLL : List LLRow → Except String PyVal)
    (ll_df : List LLRow) (pl_df : List PLRow) : List AttResult :=
  (groupKeys ll_df).filterMap
    (fun k => processGroup computeLL k (groupRows ll_df k) pl_df)

/-- `iterate_by_sample`: process every group; if no group produced a
record, raise `ValueError("No valid Atterberg limits data could be processed")`. -/
def iterate_by_sample (computeLL : List LLRow → Except String PyVal)
    (ll_df : List LLRow) (pl_df : List PLRow) : Except String (List AttResult) :=
  let results := resultsOf computeLL ll_df pl_df
  if results.isEmpty then
    Except.error "No valid Atterberg limits data could be processed"
  else Except.ok results

/-- A concrete liquid-limit row used to evaluate the pipeline. -/
def sampleLLRow : LLRow :=
  { project_number := "P1", location_name := "L1", sample_reference := "S1",
    sample_id := some 1, trial := 1, drops := 25,
    tare := 10, taremoist := 30, taredry := 25 }

/-- A liquid-limit computation that always succeeds with the value 50. -/
def cLLok : List LLRow → Except String PyVal := fun _ => Except.ok (PyVal.int 50)

/-- A liquid-limit computation that always raises (models the `NameError`
escaping `check_astm_criteria` for an out-of-range trial). -/
def cLLerr : List LLRow → Except String PyVal := fun _ => Except.error "NameError"

/-- The record `iterate_by_sample` emits for `sampleLLRow` under `cLLok`
with no plastic-limit data. -/
def sampleResult : AttResult :=
  { project_number := "P1", location_name := "L1", sample_id := 1,
    sample_reference := "S1", liquid_limit := some 50, plastic_limit := none,
    plasticity_index := none, soil_description := "NP" }

/-! Helper lemmas about grouping: `dedup`, `insertionSort` and `filterMap`
commute with `filter` in the ways needed to reason about removing one
group from the input data. -/

lemma dedup_filter_comm {α} [DecidableEq α] (p : α → Bool) (l : List α) :
    (l.filter p).dedup = l.dedup.filter p := by
  induction l with
  | nil => simp
  | cons a l ih =>
    by_cases hm : a ∈ l
    · cases hp : p a
      · simp [List.filter_cons, hp, List.dedup_cons_of_mem hm, ih]
      · rw [List.filter_cons]
        simp only [hp, if_true, List.dedup_cons_of_mem hm,
          List.dedup_cons_of_mem (List.mem_filter.mpr ⟨hm, hp⟩), ih]
    · cases hp : p a
      · simp [List.filter_cons, hp, List.dedup_cons_of_not_mem hm, ih]
      · have hnm : a ∉ l.filter p := fun hc => hm (List.mem_filter.mp hc).1
        rw [List.filter_cons]
        simp only [hp, if_true, List.dedup_cons_of_not_mem hm,
          List.dedup_cons_of_not_mem hnm, List.filter_cons, ih]

lemma insertionSort_filter_comm {α} (r : α → α → Prop) [DecidableRel r] [IsTotal α r]
    [IsTrans α r] [IsAntisymm α r] (p : α → Bool) (l : List α) :
    List.insertionSort r (l.filter p) = (List.insertionSort r l).filter p := by
  exact List.eq_of_perm_of_sorted
    ((List.perm_insertionSort r _).trans ((List.perm_insertionSort r l).filter p).symm)
    (List.sorted_insertionSort r _)
    ((List.sorted_insertionSort r l).filter p)

lemma filterMap_filter_of_none {α β} (g : α → Option β) (p : α → Bool) (l : List α)
    (h : ∀ a ∈ l, p a = false → g a = none) :
    (l.filter p).filterMap g = l.filterMap g := by
  induction l with
  | nil => rfl
  | cons a l ih =>
    have ht : ∀ x ∈ l, p x = false → g x = none :=
      fun x hx => h x (List.mem_cons_of_mem _ hx)
    cases hp : p a
    · have hga : g a = none := h a (List.mem_cons_self a l) hp
      simp [List.filter_cons, hp, List.filterMap_cons, hga, ih ht]
    · simp [List.filter_cons, hp, List.filterMap_cons, ih ht]

lemma map_rowKey_filter (ll : List LLRow) (k : String × String) :
    (ll.filter (fun r => decide (rowKey r ≠ k))).map rowKey
      = (ll.map rowKey).filter (fun x => decide (x ≠ k)) := by
  rw [List.filter_map]
  rfl

lemma groupKeys_filter (ll : List LLRow) (k : String × String) :
    groupKeys (ll.filter (fun r => decide (rowKey r ≠ k)))
      = (groupKeys ll).filter (fun x => decide (x ≠ k)) := by
  unfold groupKeys
  rw [map_rowKey_filter, dedup_filter_comm, insertionSort_filter_comm]

lemma groupRows_filter_ne (ll : List LLRow) (k k' : String × String) (h : k' ≠ k) :
    groupRows (ll.filter (fun r => decide (rowKey r ≠ k))) k' = groupRows ll k' := by
  unfold groupRows
  rw [List.filter_filter]
  apply List.filter_congr
  intro r _
  by_cases hk : rowKey r = k'
  · have hrk : rowKey r ≠ k := by rw [hk]; exact h
    simp [hk, hrk, h]
  · simp [hk]

lemma processGroup_some_fields (f : List LLRow → Except String PyVal)
    (k : String × String) (rows : List LLRow) (pl : List PLRow) (r : AttResult)
    (h : processGroup f k rows pl = some r) :
    r.location_name = k.1 ∧ r.sample_reference = k.2 := by
  simp only [processGroup] at h
  split at h
  · exact absurd h (by simp)
  · split at h
    · exact absurd h (by simp)
    · split at h
      · exact absurd h (by simp)
      · simp only [Option.some.injEq] at h
        rw [← h]
        exact ⟨rfl, rfl⟩

lemma mem_groupKeys (ll : List LLRow) (k : String × String) (h : k ∈ groupKeys ll) :
    ∃ row ∈ ll, rowKey row = k := by
  unfold groupKeys at h
  have h1 : k ∈ (ll.map rowKey).dedup := (List.perm_insertionSort keyLe _).mem_iff.mp h
  have h2 : k ∈ ll.map rowKey := List.mem_dedup.mp h1
  rcases List.mem_map.mp h2 with ⟨row, hrow, hk⟩
  exact ⟨row, hrow, hk⟩

/-! The floating-point part of `calculate_liquid_limit`, modelled over the
reals: `np.polyfit(np.log(x), y, 1)` is ordinary least squares for degree 1,
and the liquid limit is the fitted value at 25 drops, times 100, rounded. -/

/-- Python's `round(x, 0)` (half to even) on a real. -/
noncomputable def pyRoundR (x : ℝ) : ℤ :=
  if Int.fract x = 1/2 then (if Even ⌊x⌋ then ⌊x⌋ else ⌊x⌋ + 1) else round x

/-- Degree-1 least-squares fit (`np.polyfit(xs, ys, 1)`) of a list of
points, by the standard normal-equation formulas. Returns
`(slope, intercept)`. -/
noncomputable def polyfit1 (pts : List (ℝ × ℝ)) : ℝ × ℝ :=
  let n : ℝ := pts.length
  let sx := (pts.map Prod.fst).sum
  let sy := (pts.map Prod.snd).sum
  let sxx := (pts.map (fun p => p.1 * p.1)).sum
  let sxy := (pts.map (fun p => p.1 * p.2)).sum
  let slope := (n * sxy - sx * sy) / (n * sxx - sx * sx)
  let intercept := (sy - slope * sx) / n
  (slope, intercept)

/-- `calculate_liquid_limit`: trials are `(drops, water_content)` pairs; fit
`water_content = slope * ln(drops) + intercept` and return
`int(round((slope * ln(25) + intercept) * 100, 0))`. -/
noncomputable def calculate_liquid_limit (trials : List (ℝ × ℝ)) : ℤ :=
  let fit := polyfit1 (trials.map (fun p => (Real.log p.1, p.2)))
  pyRoundR ((fit.1 * Real.log 25 + fit.2) * 100)

lemma pyRoundR_intCast (n : ℤ) : pyRoundR ((n : ℝ)) = n := by
  simp [pyRoundR, Int.fract_intCast, round_intCast]

lemma polyfit1_two (u₁ u₂ y₁ y₂ : ℝ) :
    polyfit1 [(u₁, y₁), (u₂, y₂)] =
      ((2 * (u₁ * y₁ + u₂ * y₂) - (u₁ + u₂) * (y₁ + y₂)) /
        (2 * (u₁ * u₁ + u₂ * u₂) - (u₁ + u₂) * (u₁ + u₂)),
       ((y₁ + y₂) - ((2 * (u₁ * y₁ + u₂ * y₂) - (u₁ + u₂) * (y₁ + y₂)) /
        (2 * (u₁ * u₁ + u₂ * u₂) - (u₁ + u₂) * (u₁ + u₂))) * (u₁ + u₂)) / 2) := by
  simp only [polyfit1, List.map_cons, List.map_nil, List.sum_cons, List.sum_nil,
    List.length_cons, List.length_nil]
  norm_num

/-- The degree-1 least-squares fit of two points with distinct abscissas
interpolates both points exactly. -/
lemma polyfit1_pair (u₁ u₂ y₁ y₂ : ℝ) (h : u₁ ≠ u₂) :
    (polyfit1 [(u₁, y₁), (u₂, y₂)]).1 * u₁ + (polyfit1 [(u₁, y₁), (u₂, y₂)]).2 = y₁ ∧
    (polyfit1 [(u₁, y₁), (u₂, y₂)]).1 * u₂ + (polyfit1 [(u₁, y₁), (u₂, y₂)]).2 = y₂ := by
  rw [polyfit1_two]
  have hd : 2 * (u₁ * u₁ + u₂ * u₂) - (u₁ + u₂) * (u₁ + u₂) = (u₁ - u₂)^2 := by ring
  have hne : 2 * (u₁ * u₁ + u₂ * u₂) - (u₁ + u₂) * (u₁ + u₂) ≠ 0 := by
    rw [hd]; exact pow_ne_zero _ (sub_ne_zero.mpr h)
  constructor
  · field_simp
    ring
  · field_simp
    ring

/-! Claim theorems. -/

/-- C1: the spec requires the adjacent-pair tolerance of 1.4 to be taken in
percentage points (fraction times 100), under which water contents 0.2 and
0.6 (40 percentage points apart) have no qualifying pair and the estimator
must return the missing-value sentinel. The code instead compares the raw
fractional difference (0.4) against 1.4, accepts the pair, and returns 40. -/
theorem C1_tolerance_unit_bug :
    calculation_plastic_limit [1/5, 3/5] = PyVal.int 40 := by
  norm_num [calculation_plastic_limit, List.insertionSort, List.orderedInsert, plScan,
    pyRoundQ, Int.fract, round_eq, abs_le, lt_abs]

/-- C2: the spec requires soil_description = "NP" whenever the liquid limit
is missing; but a liquid limit invalidated by the criteria check is float
`nan`, not `None`, so the `is not None` branch still runs: with liquid
limit missing and plastic limit 20 the code emits "CL" (with the
plasticity index emitted as missing, since `nan` is converted by the
`pd.isna` guard). A plastic-limit group with water contents 0.2 and 0.2
indeed computes plastic limit 20. -/
theorem C2_np_missing_bug :
    calculation_plastic_limit [1/5, 1/5] = PyVal.int 20
    ∧ plasticityStep PyVal.nan (PyVal.int 20) = (PyVal.nan, "CL")
    ∧ toField PyVal.nan = none := by
  refine ⟨?_, by decide, by decide⟩
  norm_num [calculation_plastic_limit, List.insertionSort, List.orderedInsert, plScan,
    pyRoundQ, Int.fract, round_eq, abs_le, lt_abs]

/-- C3 counterexample: the claim asserts that drop counts [26, 29, 21]
leave the 15-25 band unsatisfied and force the missing-value output; in
the code 21 falls through the already-satisfied 20-30 branch and satisfies
the 15-25 band, so the liquid limit passes through unchanged. -/
theorem C3_counterexample :
    check_astm_criteria [26, 29, 21] (PyVal.int 30) = Except.ok (PyVal.int 30, "")
    ∧ check_astm_criteria [26, 29, 21] (PyVal.int 30)
      ≠ Except.ok (PyVal.nan, "Need a trial between 15 and 25 drops") := by
  exact ⟨by decide, by decide⟩

/-- C3 amended: trials with drop counts [26, 29, 21] satisfy all three
bands (26 claims 25-35, 29 claims 20-30, and 21 — tested against 25-35,
then the already-satisfied 20-30, then 15-25 — claims 15-25), so the
Criteria Validator returns the estimator's liquid limit unchanged, with no
diagnostic. -/
theorem C3_amended_all_bands_satisfied (ll : PyVal) :
    check_astm_criteria [26, 29, 21] ll = Except.ok (ll, "") := rfl

/-- C4: the spec says an out-of-range trial (drops < 15 or > 35) is merely
logged and processing continues; in the code the logging f-string names
the undefined variable `trial`, so reaching that branch raises `NameError`
— here with the three bands satisfied by the other trials. The exception
escapes to `iterate_by_sample`, which skips the whole group, so no result
is emitted for it. -/
theorem C4_out_of_range_raises :
    check_astm_criteria [26, 29, 21, 40] (PyVal.int 30)
      = Except.error "NameError: name trial is not defined" := by decide

/-- C5: for two trials at drop counts 22 and 28, the degree-1 least-squares
fit in log-drop space interpolates both points exactly, and the returned
liquid limit is `round((slope * ln 25 + intercept) * 100)`; consequently,
whenever the fitted line passes through a known water content `w` at 25
drops, the result is `round(w * 100)`. -/
theorem C5_regression_at_25 (y₁ y₂ : ℝ) :
    ((polyfit1 [(Real.log 22, y₁), (Real.log 28, y₂)]).1 * Real.log 22
        + (polyfit1 [(Real.log 22, y₁), (Real.log 28, y₂)]).2 = y₁)
    ∧ ((polyfit1 [(Real.log 22, y₁), (Real.log 28, y₂)]).1 * Real.log 28
        + (polyfit1 [(Real.log 22, y₁), (Real.log 28, y₂)]).2 = y₂)
    ∧ ∀ w : ℝ,
        (polyfit1 [(Real.log 22, y₁), (Real.log 28, y₂)]).1 * Real.log 25
          + (polyfit1 [(Real.log 22, y₁), (Real.log 28, y₂)]).2 = w →
        calculate_liquid_limit [(22, y₁), (28, y₂)] = pyRoundR (w * 100) := by
  have hlt : Real.log 22 < Real.log 28 :=
    Real.log_lt_log (by norm_num) (by norm_num)
  obtain ⟨h1, h2⟩ := polyfit1_pair (Real.log 22) (Real.log 28) y₁ y₂ (ne_of_lt hlt)
  refine ⟨h1, h2, ?_⟩
  intro w hw
  have hmap : ([((22:ℝ), y₁), ((28:ℝ), y₂)].map (fun p => (Real.log p.1, p.2)))
      = [(Real.log 22, y₁), (Real.log 28, y₂)] := by
    simp
  rw [calculate_liquid_limit, hmap, hw]

/-- C5 witness: constant water content 1/4 at drop counts 22 and 28; the
fitted line is horizontal through 1/4, so the liquid limit is 25. -/
theorem C5_regression_at_25_witness :
    calculate_liquid_limit [((22:ℝ), 1/4), ((28:ℝ), 1/4)] = 25 := by
  obtain ⟨h1, h2, h3⟩ := C5_regression_at_25 (1/4) (1/4)
  have hlt : Real.log 22 < Real.log 28 :=
    Real.log_lt_log (by norm_num) (by norm_num)
  have hsub : (polyfit1 [(Real.log 22, (1:ℝ)/4), (Real.log 28, (1:ℝ)/4)]).1 *
      (Real.log 22 - Real.log 28) = 0 := by
    have hs := sub_eq_zero.mpr (h1.trans h2.symm)
    linarith [hs]
  have hs0 : (polyfit1 [(Real.log 22, (1:ℝ)/4), (Real.log 28, (1:ℝ)/4)]).1 = 0 := by
    rcases mul_eq_zero.mp hsub with hs | hz
    · exact hs
    · exact absurd (sub_eq_zero.mp hz) (ne_of_lt hlt)
  have hi : (polyfit1 [(Real.log 22, (1:ℝ)/4), (Real.log 28, (1:ℝ)/4)]).2 = 1/4 := by
    rw [hs0] at h1; linarith
  have hw : (polyfit1 [(Real.log 22, (1:ℝ)/4), (Real.log 28, (1:ℝ)/4)]).1 * Real.log 25
      + (polyfit1 [(Real.log 22, (1:ℝ)/4), (Real.log 28, (1:ℝ)/4)]).2 = 1/4 := by
    rw [hs0, hi]; ring
  have hc := h3 (1/4) hw
  rw [hc]
  have h25 : ((1:ℝ)/4) * 100 = ((25:ℤ) : ℝ) := by norm_num
  rw [h25, pyRoundR_intCast]

/-- C6: when both the liquid limit and the plastic limit are present as
integers, the aggregation step sets the plasticity index to their
difference (emitted as a present field) and classifies "CH" when the
liquid limit is at least 50, else "CL"; in particular (55, 20) gives
(35, "CH") and (40, 22) gives (18, "CL"). -/
theorem C6_plasticity_index_classification :
    (∀ m n : ℤ, plasticityStep (PyVal.int m) (PyVal.int n)
        = (PyVal.int (m - n), if 50 ≤ m then "CH" else "CL")
      ∧ toField (PyVal.int (m - n)) = some (m - n))
    ∧ plasticityStep (PyVal.int 55) (PyVal.int 20) = (PyVal.int 35, "CH")
    ∧ plasticityStep (PyVal.int 40) (PyVal.int 22) = (PyVal.int 18, "CL") := by
  refine ⟨fun m n => ⟨?_, rfl⟩, by decide, by decide⟩
  have hguard : (PyVal.int m ≠ PyVal.pynone ∧ PyVal.int n ≠ PyVal.pynone) :=
    ⟨by simp, by simp⟩
  rw [plasticityStep, if_pos hguard]
  by_cases h : 50 ≤ m
  · simp [pySub, pyGe50, h]
  · simp [pySub, pyGe50, h]

/-- C7: the run fails hard exactly when no usable output is produced: an
empty (or failed) trial query raises the fetch failure, and
`iterate_by_sample` never returns an empty successful collection — when
every group is skipped it raises "No valid Atterberg limits data could be
processed", and when some group survives it returns the non-empty
collection. -/
theorem C7_run_level_failure :
    (∀ pn : String, fetch_data (none : Option (List LLRow)) pn
        = Except.error ("Failed to fetch data: No data found for project number: " ++ pn))
    ∧ (∀ pn : String, fetch_data (some ([] : List LLRow)) pn
        = Except.error ("Failed to fetch data: No data found for project number: " ++ pn))
    ∧ (∀ (f : List LLRow → Except String PyVal) (ll : List LLRow) (pl : List PLRow)
        (rs : List AttResult), iterate_by_sample f ll pl = Except.ok rs → rs ≠ [])
    ∧ (∀ (f : List LLRow → Except String PyVal) (ll : List LLRow) (pl : List PLRow),
        resultsOf f ll pl = [] → iterate_by_sample f ll pl
          = Except.error "No valid Atterberg limits data could be processed")
    ∧ (∀ (f : List LLRow → Except String PyVal) (ll : List LLRow) (pl : List PLRow),
        resultsOf f ll pl ≠ [] → iterate_by_sample f ll pl
          = Except.ok (resultsOf f ll pl)) := by
  refine ⟨fun pn => rfl, fun pn => rfl, ?_, ?_, ?_⟩
  · intro f ll pl rs h hrs
    simp only [iterate_by_sample] at h
    by_cases he : (resultsOf f ll pl).isEmpty
    · rw [if_pos he] at h
      cases h
    · rw [if_neg he] at h
      have heq := Except.ok.inj h
      rw [heq, hrs] at he
      exact he rfl
  · intro f ll pl h
    simp [iterate_by_sample, h]
  · intro f ll pl h
    simp [iterate_by_sample, List.isEmpty_iff, h]

/-- C7 witness: a failed query and an empty query both raise the fetch
failure for project "P1"; a single-row input yields a non-empty result
list; an empty input makes `iterate_by_sample` raise. -/
theorem C7_run_level_failure_witness :
    fetch_data (none : Option (List LLRow)) "P1"
      = Except.error ("Failed to fetch data: No data found for project number: " ++ "P1")
    ∧ fetch_data (some ([] : List LLRow)) "P1"
      = Except.error ("Failed to fetch data: No data found for project number: " ++ "P1")
    ∧ ([sampleResult] : List AttResult) ≠ []
    ∧ iterate_by_sample cLLok [] []
      = Except.error "No valid Atterberg limits data could be processed"
    ∧ iterate_by_sample cLLok [sampleLLRow] []
      = Except.ok (resultsOf cLLok [sampleLLRow] []) := by
  obtain ⟨h1, h2, h3, h4, h5⟩ := C7_run_level_failure
  exact ⟨h1 "P1", h2 "P1",
    h3 cLLok [sampleLLRow] [] [sampleResult] (by decide),
    h4 cLLok [] [] rfl,
    h5 cLLok [sampleLLRow] [] (by decide)⟩

/-- C8: a group whose processing fails (modelled by `processGroup`
returning `none`, as the source's per-group `except` turns any exception
into a skip) does not affect the other groups: the result list equals the
result list computed from the input with that group's rows removed. -/
theorem C8_group_fault_isolation (f : List LLRow → Except String PyVal)
    (ll : List LLRow) (pl : List PLRow) (k : String × String)
    (h : processGroup f k (groupRows ll k) pl = none) :
    resultsOf f ll pl
      = resultsOf f (ll.filter (fun r => decide (rowKey r ≠ k))) pl := by
  unfold resultsOf
  rw [groupKeys_filter]
  have h1 : ((groupKeys ll).filter (fun x => decide (x ≠ k))).filterMap
      (fun x => processGroup f x
        (groupRows (ll.filter (fun r => decide (rowKey r ≠ k))) x) pl)
      = ((groupKeys ll).filter (fun x => decide (x ≠ k))).filterMap
      (fun x => processGroup f x (groupRows ll x) pl) := by
    apply List.filterMap_congr
    intro x hx
    have hne : x ≠ k := of_decide_eq_true (List.mem_filter.mp hx).2
    rw [groupRows_filter_ne ll k x hne]
  rw [h1]
  have hnone : ∀ x ∈ groupKeys ll, (fun x => decide (x ≠ k)) x = false →
      processGroup f x (groupRows ll x) pl = none := by
    intro x _ hfalse
    have hxk : x = k := not_not.mp (of_decide_eq_false hfalse)
    rw [hxk]
    exact h
  rw [filterMap_filter_of_none _ _ _ hnone]

/-- C8 witness: a single-group input whose liquid-limit computation raises;
the group is skipped and the results equal those of the input without the
group. -/
theorem C8_group_fault_isolation_witness :
    processGroup cLLerr ("L1", "S1") (groupRows [sampleLLRow] ("L1", "S1")) [] = none
    ∧ resultsOf cLLerr [sampleLLRow] []
      = resultsOf cLLerr
          ([sampleLLRow].filter (fun r => decide (rowKey r ≠ ("L1", "S1")))) [] :=
  ⟨by decide, C8_group_fault_isolation cLLerr [sampleLLRow] [] ("L1", "S1") (by decide)⟩

/-- C9: the plastic-limit estimate depends only on the multiset of water
contents: permuting the trials leaves the result (value or missing
sentinel) unchanged, because the values are sorted before the scan. -/
theorem C9_permutation_invariance (l₁ l₂ : List ℚ) (h : l₁.Perm l₂) :
    calculation_plastic_limit l₁ = calculation_plastic_limit l₂ := by
  unfold calculation_plastic_limit
  congr 1
  exact List.eq_of_perm_of_sorted
    ((List.perm_insertionSort _ l₁).trans (h.trans (List.perm_insertionSort _ l₂).symm))
    (List.sorted_insertionSort _ l₁)
    (List.sorted_insertionSort _ l₂)

/-- C9 witness: swapping two water contents does not change the result. -/
theorem C9_permutation_invariance_witness :
    ([3/10, 1/10] : List ℚ).Perm [1/10, 3/10]
    ∧ calculation_plastic_limit [3/10, 1/10] = calculation_plastic_limit [1/10, 3/10] := by
  have hp : ([3/10, 1/10] : List ℚ).Perm [1/10, 3/10] :=
    List.Perm.swap (1/10 : ℚ) (3/10) []
  exact ⟨hp, C9_permutation_invariance [3/10, 1/10] [1/10, 3/10] hp⟩

/-- C10: every emitted result record comes from a `(location_name,
sample_reference)` group of the liquid-limit data: grouping is performed
over the liquid-limit rows only, so each record's key is the key of some
liquid-limit row. A group with only plastic-limit rows can never appear. -/
theorem C10_results_keyed_by_ll_groups (f : List LLRow → Except String PyVal)
    (ll : List LLRow) (pl : List PLRow) (rs : List AttResult)
    (h : iterate_by_sample f ll pl = Except.ok rs) :
    ∀ r ∈ rs, ∃ row ∈ ll, rowKey row = (r.location_name, r.sample_reference) := by
  intro r hr
  have hrs : rs = resultsOf f ll pl := by
    simp only [iterate_by_sample] at h
    by_cases he : (resultsOf f ll pl).isEmpty
    · rw [if_pos he] at h
      cases h
    · rw [if_neg he] at h
      exact (Except.ok.inj h).symm
  rw [hrs] at hr
  unfold resultsOf at hr
  rcases List.mem_filterMap.mp hr with ⟨k, hk, hpg⟩
  obtain ⟨hloc, hsref⟩ := processGroup_some_fields f k (groupRows ll k) pl r hpg
  rcases mem_groupKeys ll k hk with ⟨row, hrow, hkey⟩
  refine ⟨row, hrow, ?_⟩
  rw [hkey, hloc, hsref]

/-- C10 witness: the single emitted record's key is the key of the single
liquid-limit row. -/
theorem C10_results_keyed_by_ll_groups_witness :
    iterate_by_sample cLLok [sampleLLRow] [] = Except.ok [sampleResult]
    ∧ ∃ row ∈ ([sampleLLRow] : List LLRow),
        rowKey row = (sampleResult.location_name, sampleResult.sample_reference) := by
  refine ⟨by decide, ?_⟩
  exact C10_results_keyed_by_ll_groups cLLok [sampleLLRow] [] [sampleResult] (by decide)
    sampleResult (List.mem_singleton.mpr rfl)
